import Mathlib

/-!
# MindMate-BE: session authentication with server-side revocation

Shallow embedding of the auth/session core of the MindMate backend:

* `src/errors/app_error.rs` — the application error enum and its HTTP response
  mapping (`IntoResponse`).
* `src/db/token_blacklist_query.rs` — the revocation store queries
  (`insert_blacklisted_token`, `is_token_blacklisted`, `cleanup_expired_tokens`).
* `src/middleware/auth_middleware.rs` — the Session Gate
  (`AuthenticatedUser::from_request_parts`).
* `src/service/auth_service.rs` — `login_user`, `register_user`, `logout_user`.
* `src/utils/jwt.rs` — `validate_token` (reads `JWT_SECRET` from the ambient
  environment on every call).
* `src/main.rs` — startup environment checks and the token cleanup sweep.

Database state is modelled as explicit lists of rows; timestamps are `Nat`;
connection acquisition and connectivity failures are explicit parameters.
The query layer's `AppError::DatabaseError(..)` constructor (used throughout
`src/db/*.rs` but not declared in `src/errors/app_error.rs`) is modelled as a
separate `DbError` type; every call site in the auth core maps such errors
with `map_err` before they escape, so only the mapped variants matter.
-/

namespace MindMate

/-- The application error enum of `src/errors/app_error.rs` (`AppError`). -/
inductive AppError where
  | NotFound (msg : String)
  | BadRequest (msg : String)
  | Unauthorized (msg : String)
  | InternalServerError (msg : String)
deriving Repr, DecidableEq

/-- An HTTP response as produced by `IntoResponse for AppError`: a status code
and the JSON body, which always has the single shape of an object with one
`error` field holding the message. We record the status and that message. -/
structure Response where
  status : Nat
  error : String
deriving Repr, DecidableEq

/-- `IntoResponse for AppError` (`src/errors/app_error.rs` lines 18–30):
`NotFound ↦ 404`, `BadRequest ↦ 400`, `Unauthorized ↦ 401`,
`InternalServerError ↦ 500`, body `json!({"error": message})`. -/
def AppError.intoResponse : AppError → Response
  | .NotFound msg => { status := 404, error := msg }
  | .BadRequest msg => { status := 400, error := msg }
  | .Unauthorized msg => { status := 401, error := msg }
  | .InternalServerError msg => { status := 500, error := msg }

/-- Errors produced by the `src/db/*.rs` query layer
(`AppError::DatabaseError(e.to_string())` on a non-`NotFound` diesel error). -/
inductive DbError where
  | DatabaseError (msg : String)
deriving Repr, DecidableEq

/-- A row of the `token_blacklist` table (`src/schema.rs` lines 58–64 and the
`BlacklistedToken` struct of `src/db/token_blacklist_query.rs`): an optional
id, the raw token string, and a nullable `created_at` timestamp. The schema
declares no uniqueness constraint on `token`. -/
structure BlacklistedToken where
  id : Option Nat
  token : String
  created_at : Option Nat
deriving Repr, DecidableEq

/-- A database connection: the current contents of the `token_blacklist`
table plus a connectivity flag. A query on an unhealthy connection returns a
`DbError` instead of a result, which is how a store outage reaches the
callers of the query layer. -/
structure Conn where
  store : List BlacklistedToken
  healthy : Bool
deriving Repr, DecidableEq

/-- `is_token_blacklisted` (`src/db/token_blacklist_query.rs` lines 34–47):
`SELECT ... WHERE token = $token_str LIMIT 1`; a found row yields
`Ok(true)`, diesel's `NotFound` yields `Ok(false)`, any other error is
propagated as a database error. Membership is exact string equality. -/
def is_token_blacklisted (conn : Conn) (token_str : String) : Except DbError Bool :=
  if conn.healthy then
    .ok (conn.store.any (fun r => r.token == token_str))
  else
    .error (.DatabaseError "connection failure")

/-- `insert_blacklisted_token` (`src/db/token_blacklist_query.rs` lines
16–32): a plain `INSERT INTO token_blacklist` of
`{ id: None, token: token_str, created_at: Some(now) }` — no
`ON CONFLICT` clause and no uniqueness constraint in `src/schema.rs`, so the
new row is appended unconditionally. Returns the updated table. -/
def insert_blacklisted_token (conn : Conn) (token_str : String) (now : Nat) :
    Except DbError (List BlacklistedToken) :=
  if conn.healthy then
    .ok (conn.store ++ [{ id := none, token := token_str, created_at := some now }])
  else
    .error (.DatabaseError "connection failure")

/-- The SQL comparison `created_at < cutoff` of `cleanup_expired_tokens`:
on a `NULL` `created_at` the comparison is `NULL`, so the row is not
selected for deletion. -/
def createdBefore (created_at : Option Nat) (cutoff : Nat) : Bool :=
  match created_at with
  | some t => decide (t < cutoff)
  | none => false

/-- `cleanup_expired_tokens` (`src/db/token_blacklist_query.rs` lines 49–55):
`DELETE FROM token_blacklist WHERE created_at < cutoff_date`, returning the
number of deleted rows; here paired with the resulting table contents. -/
def cleanup_expired_tokens (conn : Conn) (cutoff_date : Nat) :
    Except DbError (Nat × List BlacklistedToken) :=
  if conn.healthy then
    .ok ((conn.store.filter (fun r => createdBefore r.created_at cutoff_date)).length,
         conn.store.filter (fun r => !createdBefore r.created_at cutoff_date))
  else
    .error (.DatabaseError "connection failure")

/-- The JWT claims struct (`Claims` with `sub` and `exp`): subject string and
absolute expiry timestamp. -/
structure Claims where
  sub : String
  exp : Nat
deriving Repr, DecidableEq

/-- The authenticated principal (`AuthenticatedUser(pub String)` in
`src/middleware/auth_middleware.rs`): the subject string of the verified,
non-revoked token. -/
structure AuthenticatedUser where
  sub : String
deriving Repr, DecidableEq

/-- `HeaderValue::to_str` succeeds only when every character of the header
value is visible ASCII (or space); otherwise the gate maps the failure to
`Unauthorized "Invalid Authorization header"`. -/
def headerValueToStrOk (s : String) : Bool :=
  s.data.all (fun c => 32 ≤ c.toNat && c.toNat ≤ 126)

/-- The Session Gate: `AuthenticatedUser::from_request_parts`
(`src/middleware/auth_middleware.rs` lines 24–56). Parameters: `validate` is
the result-level behaviour of `crate::utils::jwt::validate_token` on each
token string; `pool` is the outcome of `state.get()` (connection checkout);
`authorization` is the request's `Authorization` header, `none` when absent.
Steps, in source order: header present → header is a valid string → scheme is
`Bearer ` (`starts_with("Bearer ")`, stated as equality of the 7-character
prefix) → token decodes → connection acquired → blacklist membership check
(an error there is mapped to `InternalServerError`, a hit to `Unauthorized`)
→ accept with the claims' subject. -/
def from_request_parts (validate : String → Except AppError Claims)
    (pool : Except String Conn) (authorization : Option String) :
    Except AppError AuthenticatedUser :=
  match authorization with
  | none => .error (.Unauthorized "Authorization header missing")
  | some auth_str =>
    if !headerValueToStrOk auth_str then
      .error (.Unauthorized "Invalid Authorization header")
    else if !(auth_str.take 7 == "Bearer ") then
      .error (.Unauthorized "Invalid Authorization scheme")
    else
      let token := auth_str.drop 7
      match validate token with
      | .error _ => .error (.Unauthorized "Invalid token")
      | .ok claims =>
        match pool with
        | .error _ => .error (.InternalServerError "Failed to get DB connection")
        | .ok conn =>
          match is_token_blacklisted conn token with
          | .error _ => .error (.InternalServerError "Failed to check token blacklist")
          | .ok true => .error (.Unauthorized "Token is blacklisted")
          | .ok false => .ok { sub := claims.sub }

/-- `logout_user` (`src/service/auth_service.rs` lines 92–116): acquire a
connection, validate the token, check blacklist membership (already present →
`Unauthorized "Token is already blacklisted"`), then insert the token into
the blacklist. The second component is the resulting `token_blacklist` table
(`none` when no connection was acquired, so no table was observed). -/
def logout_user (validate : String → Except AppError Claims)
    (pool : Except String Conn) (token : String) (now : Nat) :
    Except AppError Unit × Option (List BlacklistedToken) :=
  match pool with
  | .error _ => (.error (.InternalServerError "Failed to get DB connection"), none)
  | .ok conn =>
    match validate token with
    | .error _ => (.error (.Unauthorized "Invalid token"), some conn.store)
    | .ok _ =>
      match is_token_blacklisted conn token with
      | .error _ =>
          (.error (.InternalServerError "Failed to check token blacklist"), some conn.store)
      | .ok true =>
          (.error (.Unauthorized "Token is already blacklisted"), some conn.store)
      | .ok false =>
        match insert_blacklisted_token conn token now with
        | .error e =>
            match e with
            | .DatabaseError msg => (.error (.InternalServerError msg), some conn.store)
        | .ok st => (.ok (), some st)

/-- Modelled from the spec: the wire format of the signed token is produced
by the `jsonwebtoken` library, which is not part of `src/`; per §4.2 a token
carries a payload `{sub, exp}` plus a signature over that payload under the
shared secret, so the encoded token is modelled structurally as the claims
paired with their signature value. -/
structure Token where
  claims : Claims
  sig : Nat
deriving Repr, DecidableEq

/-- Modelled from the spec: a deterministic signature of the claims payload
under the shared secret, standing in for the HMAC of the signed-claims
scheme of §4.2. -/
def signPayload (secret : String) (c : Claims) : Nat :=
  (secret.data.foldl (fun h ch => h * 31 + ch.toNat) 7) * 2147483647 +
    (c.sub.data.foldl (fun h ch => h * 31 + ch.toNat) 7) * 65537 + c.exp

/-- Modelled from the spec: `generate_token` is imported from
`crate::utils::jwt` by `src/service/auth_service.rs` but its definition is
absent from `src/` (`src/utils/jwt.rs` only defines `validate_token`). Per
§4.2, `issue(subject, ttl)` builds a payload `{sub: subject, exp: now + ttl}`
and signs it with the shared secret. -/
def generate_token (secret : String) (now ttl : Nat) (subject : String) : Token :=
  { claims := { sub := subject, exp := now + ttl },
    sig := signPayload secret { sub := subject, exp := now + ttl } }

/-- Modelled from the spec: the library-side decode used by `validate_token`
(`jsonwebtoken::decode`, not part of `src/`). Per §4.2, it verifies the
signature against the shared secret and that the expiry is in the future,
returning one undifferentiated error on either failure. -/
def jwt_decode (secret : String) (now : Nat) (t : Token) : Except String Claims :=
  if t.sig = signPayload secret t.claims ∧ now < t.claims.exp then
    .ok t.claims
  else
    .error "InvalidToken"

/-- Process environment lookup (`std::env::var`): first binding of the key. -/
def lookupEnv (env : List (String × String)) (key : String) : Option String :=
  (env.find? (fun p => p.1 == key)).map (fun p => p.2)

/-- Outcome of a call that may panic (Rust `expect` on a missing
environment variable), in addition to returning a value or an error. -/
inductive RtResult (α : Type) where
  | ok (a : α)
  | err (e : AppError)
  | panicked (msg : String)
deriving Repr, DecidableEq

/-- `validate_token` (`src/utils/jwt.rs` lines 5–14): reads `JWT_SECRET`
from the ambient process environment on every call —
`std::env::var("JWT_SECRET").expect("JWT_SECRET must be set")` — so a
missing secret panics at the call; otherwise decodes the token with the
secret, mapping any decode failure to `Unauthorized "Invalid token"`. -/
def validate_token (env : List (String × String)) (now : Nat) (token : Token) :
    RtResult Claims :=
  match lookupEnv env "JWT_SECRET" with
  | none => .panicked "JWT_SECRET must be set"
  | some secret =>
    match jwt_decode secret now token with
    | .ok c => .ok c
    | .error _ => .err (.Unauthorized "Invalid token")

/-- Outcome of process startup. -/
inductive StartupOutcome where
  | started
  | aborted (msg : String)
deriving Repr, DecidableEq

/-- The environment checks `main` performs before serving
(`src/main.rs` lines 47–59): after loading `.env`, only
`env::var("DATABASE_URL").expect("DATABASE_URL must be set")` is evaluated;
`JWT_SECRET` is never read at startup. -/
def mainStartup (env : List (String × String)) : StartupOutcome :=
  match lookupEnv env "DATABASE_URL" with
  | none => .aborted "DATABASE_URL must be set"
  | some _ => .started

/-- The cutoff the sweep loop in `token_cleanup_task` (`src/main.rs` lines
22–45) passes to `cleanup_expired_tokens`: now minus the 7-day retention
window (in seconds). -/
def sweepCutoff (now : Nat) : Nat :=
  now - 7 * 24 * 60 * 60

/-- A row of the `users` table (`src/schema.rs` lines 66–83 /
`src/models/user.rs`). -/
structure User where
  id : Int
  username : String
  email : String
  password : String
  settings : Option String
  age : Option Int
  gender : Option String
  avatar : Option String
  created_at : Nat
  updated_at : Nat
deriving Repr, DecidableEq

/-- `UserResponse` (`src/models/user.rs` lines 35–46): the user object
serialized into login responses — including the `password` field. -/
structure UserResponse where
  id : Int
  username : String
  email : String
  password : String
  age : Option Int
  gender : Option String
  avatar : Option String
  settings : Option String
  created_at : Nat
  updated_at : Nat
deriving Repr, DecidableEq

/-- `LoginResponse` (`src/models/auth.rs`): the token plus the user object. -/
structure LoginResponse where
  token : Token
  user : UserResponse
deriving Repr, DecidableEq

/-- `find_user_by_email` (`src/db/user_query.rs`): first row of `users`
whose `email` matches exactly. -/
def find_user_by_email (users : List User) (email : String) : Except DbError User :=
  match users.find? (fun u => u.email == email) with
  | some u => .ok u
  | none => .error (.DatabaseError "NotFound")

/-- `find_user_by_username` (`src/db/user_query.rs`): first row of `users`
whose `username` matches exactly. -/
def find_user_by_username (users : List User) (username : String) : Except DbError User :=
  match users.find? (fun u => u.username == username) with
  | some u => .ok u
  | none => .error (.DatabaseError "NotFound")

/-- `login_user` (`src/service/auth_service.rs` lines 50–90): look the user
up by email (failure → the generic `Unauthorized`), verify the password with
bcrypt (`bverify`, whose primitive failure → `InternalServerError`, mismatch
→ the generic `Unauthorized`), generate a token for the user's id, and
return a `LoginResponse` whose `user` copies every stored column — including
`password` — into the `UserResponse`. -/
def login_user (users : List User) (bverify : String → String → Except Unit Bool)
    (secret : String) (now ttl : Nat) (email password : String) :
    Except AppError LoginResponse :=
  match find_user_by_email users email with
  | .error _ => .error (.Unauthorized "Invalid email or password")
  | .ok user =>
    match bverify password user.password with
    | .error _ => .error (.InternalServerError "Failed to verify password")
    | .ok false => .error (.Unauthorized "Invalid email or password")
    | .ok true =>
      .ok { token := generate_token secret now ttl (toString user.id),
            user := { id := user.id, username := user.username, email := user.email,
                      password := user.password, age := user.age, gender := user.gender,
                      avatar := user.avatar, settings := user.settings,
                      created_at := user.created_at, updated_at := user.updated_at } }

/-- Rust's `str::trim`: the string with leading and trailing whitespace
removed. -/
def rustTrim (s : String) : String :=
  ⟨((s.data.dropWhile Char.isWhitespace).reverse.dropWhile Char.isWhitespace).reverse⟩

/-- `register_user` (`src/service/auth_service.rs` lines 9–48): require age
and a non-blank gender, reject duplicate email or username, hash the
password (`bhash`, bcrypt; primitive failure → `InternalServerError`), then
`create_user` stores the row with the hashed password and returns it
(re-fetched by email). `newId` is the id the database assigns. -/
def register_user (users : List User) (bhash : String → Option String)
    (username email password : String) (age : Option Int) (gender : Option String)
    (settings : Option String) (now : Nat) (newId : Int) : Except AppError User :=
  match age with
  | none => .error (.BadRequest "Age must be provided")
  | some a =>
    match gender with
    | none => .error (.BadRequest "Gender must be provided")
    | some g =>
      if rustTrim g = "" then
        .error (.BadRequest "Gender must be provided")
      else if (users.find? (fun u => u.email == email)).isSome then
        .error (.BadRequest "Email already exists")
      else if (users.find? (fun u => u.username == username)).isSome then
        .error (.BadRequest "Username already exists")
      else
        match bhash password with
        | none => .error (.InternalServerError "Failed to hash password")
        | some hashed =>
          .ok { id := newId, username := username, email := email, password := hashed,
                settings := settings, age := some a, gender := some g, avatar := none,
                created_at := now, updated_at := now }

/-- The user object of the `register` handler's success body
(`src/api/auth_handler.rs` lines 37–47): id, username, email, age, gender —
and the `password` field, copied verbatim from the stored user. -/
structure RegisterResponseUser where
  id : Int
  username : String
  email : String
  age : Option Int
  gender : Option String
  password : String
deriving Repr, DecidableEq

/-- The `register` handler (`src/api/auth_handler.rs` lines 23–48): call
`register_user` and serialize the returned user into the response body. -/
def register (users : List User) (bhash : String → Option String)
    (username email password : String) (age : Option Int) (gender : Option String)
    (now : Nat) (newId : Int) : Except AppError RegisterResponseUser :=
  (register_user users bhash username email password age gender none now newId).map
    (fun user =>
      { id := user.id, username := user.username, email := user.email,
        age := user.age, gender := user.gender, password := user.password })

/-- No token strings in the store: `tokensUnique` trivially holds and every
record's token is pairwise distinct. -/
def tokensUnique (st : List BlacklistedToken) : Prop :=
  st.Pairwise (fun a b => a.token ≠ b.token)

/-- A token-decode stub that rejects everything, for concrete instances. -/
def validateNever : String → Except AppError Claims :=
  fun _ => .error (.Unauthorized "Invalid token")

/-- A token-decode stub that accepts everything with fixed claims, for
concrete instances. -/
def validateConst (c : Claims) : String → Except AppError Claims :=
  fun _ => .ok c

/-- An empty, healthy connection, for concrete instances. -/
def connEmpty : Conn :=
  { store := [], healthy := true }

/-- A healthy connection whose blacklist holds the single token `"tok"`,
for concrete instances. -/
def connWithTok : Conn :=
  { store := [{ id := none, token := "tok", created_at := some 0 }], healthy := true }

/-- An environment defining `DATABASE_URL` but not `JWT_SECRET`, for
concrete instances. -/
def envDbOnly : List (String × String) :=
  [("DATABASE_URL", "database.sqlite")]

/-- C1: when the token decodes but the blacklist membership check returns a
database error, the Session Gate rejects the request (mapping the store
error to `InternalServerError`); it never accepts the token as non-revoked. -/
theorem gate_fails_closed_on_store_error (validate : String → Except AppError Claims)
    (conn : Conn) (auth_str : String) (c : Claims) (e : DbError)
    (hhdr : headerValueToStrOk auth_str = true)
    (hscheme : (auth_str.take 7 == "Bearer ") = true)
    (hval : validate (auth_str.drop 7) = .ok c)
    (herr : is_token_blacklisted conn (auth_str.drop 7) = .error e) :
    from_request_parts validate (.ok conn) (some auth_str) =
      .error (.InternalServerError "Failed to check token blacklist") := by
  simp [from_request_parts, hhdr, hscheme, hval, herr]

/-- Witness for C1: a concrete otherwise-valid request over an unhealthy
store is rejected. -/
theorem gate_fails_closed_on_store_error_witness :
    from_request_parts (validateConst { sub := "42", exp := 100 })
      (.ok { store := [], healthy := false }) (some "Bearer tok") =
      .error (.InternalServerError "Failed to check token blacklist") :=
  gate_fails_closed_on_store_error (validateConst { sub := "42", exp := 100 })
    { store := [], healthy := false } "Bearer tok" { sub := "42", exp := 100 }
    (.DatabaseError "connection failure") (by decide) (by decide) rfl rfl

/-- C2: when the store holds a revocation record for exactly the bearer
token `t`, the Session Gate rejects the request with `Unauthorized` even
though the token decodes successfully; and because membership is an exact
string match, revoking `t` leaves the membership result of any other token
string unchanged. -/
theorem revoked_token_rejected_exact_match
    (validate : String → Except AppError Claims) (conn : Conn)
    (auth_str t tother : String) (c : Claims) (r : BlacklistedToken) (now : Nat)
    (st : List BlacklistedToken)
    (hhdr : headerValueToStrOk auth_str = true)
    (hscheme : (auth_str.take 7 == "Bearer ") = true)
    (htok : auth_str.drop 7 = t)
    (hval : validate t = .ok c)
    (hhealthy : conn.healthy = true)
    (hr : r ∈ conn.store) (hrt : r.token = t)
    (hins : insert_blacklisted_token conn t now = .ok st)
    (hne : tother ≠ t) :
    from_request_parts validate (.ok conn) (some auth_str) =
      .error (.Unauthorized "Token is blacklisted")
    ∧ is_token_blacklisted { store := st, healthy := true } tother =
        is_token_blacklisted conn tother := by
  have hmem : conn.store.any (fun rec => rec.token == t) = true :=
    List.any_eq_true.mpr ⟨r, hr, by simp [hrt]⟩
  constructor
  · simp [from_request_parts, hhdr, hscheme, htok, hval, is_token_blacklisted,
      hhealthy, hmem]
  · simp only [insert_blacklisted_token, hhealthy, if_true, Except.ok.injEq] at hins
    subst hins
    have hne2 : (t == tother) = false := beq_eq_false_iff_ne.mpr (Ne.symm hne)
    simp [is_token_blacklisted, hhealthy, List.any_append, hne2]

/-- Witness for C2: a concrete revoked token is rejected while the
membership result for a different token string is unchanged. -/
theorem revoked_token_rejected_exact_match_witness :
    from_request_parts (validateConst { sub := "42", exp := 100 }) (.ok connWithTok)
      (some "Bearer tok") = .error (.Unauthorized "Token is blacklisted")
    ∧ is_token_blacklisted
        { store := [{ id := none, token := "tok", created_at := some 0 },
                    { id := none, token := "tok", created_at := some 5 }],
          healthy := true } "other" =
        is_token_blacklisted connWithTok "other" :=
  revoked_token_rejected_exact_match (validateConst { sub := "42", exp := 100 })
    connWithTok "Bearer tok" "tok" "other" { sub := "42", exp := 100 }
    { id := none, token := "tok", created_at := some 0 } 5
    [{ id := none, token := "tok", created_at := some 0 },
     { id := none, token := "tok", created_at := some 5 }]
    (by decide) (by decide) (by decide) rfl rfl (by decide) rfl rfl (by decide)

/-- C3: the store-level insert succeeds again on a second call for the same
token (plain insert, no uniqueness constraint), but `logout_user` applied
while the token is already in the blacklist returns
`Unauthorized "Token is already blacklisted"` and leaves the store
unchanged (no second insert is performed). -/
theorem second_logout_rejected_store_unchanged
    (validate : String → Except AppError Claims) (conn : Conn) (t : String)
    (c : Claims) (now now2 : Nat) (st : List BlacklistedToken) (r : BlacklistedToken)
    (hhealthy : conn.healthy = true)
    (hval : validate t = .ok c)
    (hr : r ∈ conn.store) (hrt : r.token = t)
    (_hins : insert_blacklisted_token conn t now = .ok st) :
    insert_blacklisted_token { store := st, healthy := true } t now2 =
      .ok (st ++ [{ id := none, token := t, created_at := some now2 }])
    ∧ logout_user validate (.ok conn) t now2 =
        (.error (.Unauthorized "Token is already blacklisted"), some conn.store) := by
  have hmem : conn.store.any (fun rec => rec.token == t) = true :=
    List.any_eq_true.mpr ⟨r, hr, by simp [hrt]⟩
  refine ⟨by simp [insert_blacklisted_token], ?_⟩
  simp [logout_user, hval, is_token_blacklisted, hhealthy, hmem]

/-- Witness for C3: concrete double revoke succeeds at the store level while
a logout of the already-blacklisted token is rejected with the store
untouched. -/
theorem second_logout_rejected_store_unchanged_witness :
    insert_blacklisted_token
      { store := [{ id := none, token := "tok", created_at := some 0 },
                  { id := none, token := "tok", created_at := some 5 }],
        healthy := true } "tok" 9 =
      .ok [{ id := none, token := "tok", created_at := some 0 },
           { id := none, token := "tok", created_at := some 5 },
           { id := none, token := "tok", created_at := some 9 }]
    ∧ logout_user (validateConst { sub := "42", exp := 100 }) (.ok connWithTok) "tok" 9 =
        (.error (.Unauthorized "Token is already blacklisted"),
         some [{ id := none, token := "tok", created_at := some 0 }]) :=
  second_logout_rejected_store_unchanged (validateConst { sub := "42", exp := 100 })
    connWithTok "tok" { sub := "42", exp := 100 } 5 9
    [{ id := none, token := "tok", created_at := some 0 },
     { id := none, token := "tok", created_at := some 5 }]
    { id := none, token := "tok", created_at := some 0 }
    (by decide) rfl (by decide) (by decide) rfl

/-- C4, counterexample: two rejected authentication attempts with distinct
internal failure reasons (missing header vs wrong scheme) both map to the
`Unauthorized` kind, but their externally visible response bodies differ, so
a caller can distinguish the reasons — the responses are not identical. -/
theorem gate_rejection_bodies_differ :
    from_request_parts validateNever (.ok connEmpty) none =
      .error (.Unauthorized "Authorization header missing")
    ∧ from_request_parts validateNever (.ok connEmpty) (some "Token abc") =
      .error (.Unauthorized "Invalid Authorization scheme")
    ∧ (AppError.Unauthorized "Authorization header missing").intoResponse ≠
      (AppError.Unauthorized "Invalid Authorization scheme").intoResponse :=
  ⟨rfl, rfl, by decide⟩

/-- C4, amended: every Session Gate rejection reached over a healthy
connection (covering the reasons missing header, invalid header bytes,
wrong scheme, bad signature or expired token, revoked token) carries the
single error kind `Unauthorized`, rendered with status 401; the message
strings however differ per reason (bad signature and expiry share
`"Invalid token"`), so the response body does reveal which class of reason
caused the rejection. -/
theorem gate_rejections_single_kind (validate : String → Except AppError Claims)
    (conn : Conn) (hdr : Option String) (e : AppError)
    (hhealthy : conn.healthy = true)
    (hrej : from_request_parts validate (.ok conn) hdr = .error e) :
    e.intoResponse.status = 401
    ∧ (e = .Unauthorized "Authorization header missing"
       ∨ e = .Unauthorized "Invalid Authorization header"
       ∨ e = .Unauthorized "Invalid Authorization scheme"
       ∨ e = .Unauthorized "Invalid token"
       ∨ e = .Unauthorized "Token is blacklisted") := by
  cases hdr with
  | none =>
    simp only [from_request_parts, Except.error.injEq] at hrej
    subst hrej
    exact ⟨rfl, Or.inl rfl⟩
  | some s =>
    simp only [from_request_parts] at hrej
    by_cases h1 : headerValueToStrOk s
    · by_cases h2 : (s.take 7 == "Bearer ") = true
      · cases hv : validate (s.drop 7) with
        | error e2 =>
          simp only [h1, h2, hv, Bool.not_true, Bool.false_eq_true, if_false,
            Except.error.injEq] at hrej
          subst hrej
          exact ⟨rfl, Or.inr (Or.inr (Or.inr (Or.inl rfl)))⟩
        | ok c =>
          simp only [h1, h2, hv, Bool.not_true, Bool.false_eq_true, if_false,
            is_token_blacklisted, hhealthy, if_true] at hrej
          cases hany : conn.store.any (fun r => r.token == s.drop 7) with
          | true =>
            simp only [hany, Except.error.injEq] at hrej
            subst hrej
            exact ⟨rfl, Or.inr (Or.inr (Or.inr (Or.inr rfl)))⟩
          | false =>
            simp only [hany] at hrej
            exact absurd hrej (by simp)
      · simp only [h1, h2, Bool.not_true, Bool.false_eq_true, if_false,
          Bool.not_eq_true] at hrej
        simp only [Bool.not_eq_true] at h2
        simp only [h2, Bool.not_false, if_true, Except.error.injEq] at hrej
        subst hrej
        exact ⟨rfl, Or.inr (Or.inr (Or.inl rfl))⟩
    · simp only [Bool.not_eq_true] at h1
      simp only [h1, Bool.not_false, if_true, Except.error.injEq] at hrej
      subst hrej
      exact ⟨rfl, Or.inr (Or.inl rfl)⟩

/-- Witness for the amended C4: a concrete rejection (missing header) has
kind `Unauthorized` and status 401. -/
theorem gate_rejections_single_kind_witness :
    (AppError.Unauthorized "Authorization header missing").intoResponse.status = 401
    ∧ (AppError.Unauthorized "Authorization header missing" =
         .Unauthorized "Authorization header missing"
       ∨ AppError.Unauthorized "Authorization header missing" =
         .Unauthorized "Invalid Authorization header"
       ∨ AppError.Unauthorized "Authorization header missing" =
         .Unauthorized "Invalid Authorization scheme"
       ∨ AppError.Unauthorized "Authorization header missing" =
         .Unauthorized "Invalid token"
       ∨ AppError.Unauthorized "Authorization header missing" =
         .Unauthorized "Token is blacklisted") :=
  gate_rejections_single_kind validateNever connEmpty none
    (.Unauthorized "Authorization header missing") rfl rfl

/-- C5, counterexample: with `DATABASE_URL` set but `JWT_SECRET` absent,
process startup completes (the startup environment checks never read
`JWT_SECRET`), and the first call to `validate_token` panics with
`"JWT_SECRET must be set"` — the missing signing secret is not a fatal
startup error but a first-use panic. -/
theorem startup_ignores_missing_jwt_secret :
    mainStartup envDbOnly = .started
    ∧ lookupEnv envDbOnly "JWT_SECRET" = none
    ∧ validate_token envDbOnly 0 (generate_token "secret" 0 86400 "42") =
        .panicked "JWT_SECRET must be set" :=
  ⟨rfl, rfl, rfl⟩

/-- C5, amended: startup aborts only for a missing `DATABASE_URL`; when
`DATABASE_URL` is present, startup succeeds regardless of `JWT_SECRET`, and
`validate_token` reads `JWT_SECRET` from the ambient environment on every
call, panicking at its first use when the secret is absent. -/
theorem jwt_secret_deferred_to_first_use (env : List (String × String))
    (dburl : String) (now : Nat) (t : Token)
    (hdb : lookupEnv env "DATABASE_URL" = some dburl)
    (hjwt : lookupEnv env "JWT_SECRET" = none) :
    mainStartup env = .started
    ∧ validate_token env now t = .panicked "JWT_SECRET must be set" := by
  constructor
  · simp [mainStartup, hdb]
  · simp [validate_token, hjwt]

/-- Witness for the amended C5: the concrete environment with only
`DATABASE_URL` starts up and panics inside `validate_token`. -/
theorem jwt_secret_deferred_to_first_use_witness :
    mainStartup envDbOnly = .started
    ∧ validate_token envDbOnly 3 (generate_token "secret" 1 2 "7") =
        .panicked "JWT_SECRET must be set" :=
  jwt_secret_deferred_to_first_use envDbOnly "database.sqlite" 3
    (generate_token "secret" 1 2 "7") (by decide) (by decide)

/-- C6: decoding an issued token before its expiry succeeds and returns
exactly the issued subject and the expiry `issue_time + ttl`
(`decode(issue(subject, ttl))` roundtrip of §8). -/
theorem decode_issue_roundtrip (secret subject : String) (issue_time ttl now : Nat)
    (h : now < issue_time + ttl) :
    jwt_decode secret now (generate_token secret issue_time ttl subject) =
      .ok { sub := subject, exp := issue_time + ttl } := by
  simp [jwt_decode, generate_token, h]

/-- Witness for C6: a concrete issued token decodes to its subject and
expiry before the ttl elapses. -/
theorem decode_issue_roundtrip_witness :
    jwt_decode "secret" 3600 (generate_token "secret" 0 86400 "42") =
      .ok { sub := "42", exp := 86400 } :=
  decode_issue_roundtrip "secret" "42" 0 86400 3600 (by decide)

/-- The SQL predicate of the sweep holds exactly on a present timestamp
strictly earlier than the cutoff. -/
theorem createdBefore_iff (o : Option Nat) (c : Nat) :
    createdBefore o c = true ↔ ∃ ts, o = some ts ∧ ts < c := by
  cases o <;> simp [createdBefore]

/-- Splitting a list by a predicate preserves its length. -/
theorem length_filter_not_add (l : List BlacklistedToken) (p : BlacklistedToken → Bool) :
    (l.filter p).length + (l.filter (fun a => !p a)).length = l.length := by
  induction l with
  | nil => rfl
  | cons a l ih =>
    cases h : p a <;> simp [List.filter_cons, h] <;> omega

/-- C7: the sweep removes exactly the records whose recorded timestamp is
strictly earlier than the cutoff (the kept records are a sublist of the
store, a store record is kept iff it has no timestamp below the cutoff, and
removed count plus kept count is the store size); when no record qualifies
the sweep removes zero records and leaves the store unchanged. -/
theorem cleanup_removes_exactly_expired (conn : Conn) (cutoff n : Nat)
    (kept : List BlacklistedToken)
    (hhealthy : conn.healthy = true)
    (hrun : cleanup_expired_tokens conn cutoff = .ok (n, kept)) :
    kept.Sublist conn.store
    ∧ (∀ r ∈ conn.store, r ∈ kept ↔ ¬∃ ts, r.created_at = some ts ∧ ts < cutoff)
    ∧ n + kept.length = conn.store.length
    ∧ ((∀ r ∈ conn.store, ∀ ts, r.created_at = some ts → ¬ ts < cutoff) →
        n = 0 ∧ kept = conn.store) := by
  simp only [cleanup_expired_tokens, hhealthy, if_true, Except.ok.injEq,
    Prod.mk.injEq] at hrun
  obtain ⟨hn, hkept⟩ := hrun
  subst hn
  subst hkept
  refine ⟨List.filter_sublist _, ?_, length_filter_not_add _ _, ?_⟩
  · intro r hr
    rw [List.mem_filter]
    simp only [hr, true_and, Bool.not_eq_true']
    cases r.created_at with
    | none => simp [createdBefore]
    | some ts => simp [createdBefore, decide_eq_false_iff_not, Nat.not_lt]
  · intro hnone
    have hall : ∀ r ∈ conn.store, createdBefore r.created_at cutoff = false := by
      intro r hr
      cases hcb : createdBefore r.created_at cutoff with
      | false => rfl
      | true =>
        obtain ⟨ts, hts, hlt⟩ := (createdBefore_iff _ _).mp hcb
        exact absurd hlt (hnone r hr ts hts)
    constructor
    · have : conn.store.filter (fun r => createdBefore r.created_at cutoff) = [] :=
        List.filter_eq_nil_iff.mpr (fun r hr => by simp [hall r hr])
      simp [this]
    · exact List.filter_eq_self.mpr (fun r hr => by simp [hall r hr])

/-- Witness for C7: a concrete sweep over records dated 10, NULL and 100
with cutoff 50 removes exactly the record dated 10. -/
theorem cleanup_removes_exactly_expired_witness :
    ([{ id := none, token := "b", created_at := none },
      { id := none, token := "c", created_at := some 100 }] :
        List BlacklistedToken).Sublist
      [{ id := none, token := "a", created_at := some 10 },
       { id := none, token := "b", created_at := none },
       { id := none, token := "c", created_at := some 100 }]
    ∧ (∀ r ∈ ([{ id := none, token := "a", created_at := some 10 },
               { id := none, token := "b", created_at := none },
               { id := none, token := "c", created_at := some 100 }] :
                 List BlacklistedToken),
        r ∈ ([{ id := none, token := "b", created_at := none },
              { id := none, token := "c", created_at := some 100 }] :
                List BlacklistedToken) ↔
          ¬∃ ts, r.created_at = some ts ∧ ts < 50)
    ∧ 1 + ([{ id := none, token := "b", created_at := none },
            { id := none, token := "c", created_at := some 100 }] :
              List BlacklistedToken).length =
        ([{ id := none, token := "a", created_at := some 10 },
          { id := none, token := "b", created_at := none },
          { id := none, token := "c", created_at := some 100 }] :
            List BlacklistedToken).length
    ∧ ((∀ r ∈ ([{ id := none, token := "a", created_at := some 10 },
                { id := none, token := "b", created_at := none },
                { id := none, token := "c", created_at := some 100 }] :
                  List BlacklistedToken), ∀ ts, r.created_at = some ts → ¬ ts < 50) →
        1 = 0 ∧ ([{ id := none, token := "b", created_at := none },
                  { id := none, token := "c", created_at := some 100 }] :
                    List BlacklistedToken) =
          [{ id := none, token := "a", created_at := some 10 },
           { id := none, token := "b", created_at := none },
           { id := none, token := "c", created_at := some 100 }]) :=
  cleanup_removes_exactly_expired
    { store := [{ id := none, token := "a", created_at := some 10 },
                { id := none, token := "b", created_at := none },
                { id := none, token := "c", created_at := some 100 }],
      healthy := true } 50 1
    [{ id := none, token := "b", created_at := none },
     { id := none, token := "c", created_at := some 100 }]
    rfl rfl

/-- C8, counterexample: `insert_blacklisted_token` applied to a store that
already holds the token `"tok"` succeeds and yields a store with two
records sharing the token string `"tok"` — the insert is a plain append, not
an idempotent no-duplicate insert. -/
theorem insert_existing_token_creates_duplicate :
    insert_blacklisted_token connWithTok "tok" 5 =
      .ok [{ id := none, token := "tok", created_at := some 0 },
           { id := none, token := "tok", created_at := some 5 }]
    ∧ ([{ id := none, token := "tok", created_at := some 0 },
        { id := none, token := "tok", created_at := some 5 }] :
          List BlacklistedToken).countP (fun r => r.token == "tok") = 2 :=
  ⟨rfl, by decide⟩

/-- C8, amended: the store states reachable through the program's writers
keep token strings unique — `logout_user` inserts only after the membership
check reports the token absent, and the sweep only deletes — but
`insert_blacklisted_token` itself, applied directly when the token is
already present, does not error and appends a second record with the same
token string rather than being an idempotent insert. -/
theorem writers_preserve_uniqueness_insert_appends
    (validate : String → Except AppError Claims) (conn : Conn) (t : String)
    (now cutoff n : Nat) (res : Except AppError Unit)
    (st stc : List BlacklistedToken)
    (hhealthy : conn.healthy = true)
    (hu : tokensUnique conn.store)
    (hlog : logout_user validate (.ok conn) t now = (res, some st))
    (hcln : cleanup_expired_tokens conn cutoff = .ok (n, stc)) :
    tokensUnique st ∧ tokensUnique stc
    ∧ insert_blacklisted_token conn t now =
        .ok (conn.store ++ [{ id := none, token := t, created_at := some now }]) := by
  refine ⟨?_, ?_, by simp [insert_blacklisted_token, hhealthy]⟩
  · simp only [logout_user] at hlog
    cases hv : validate t with
    | error e =>
      rw [hv] at hlog
      simp only [Prod.mk.injEq, Option.some.injEq] at hlog
      obtain ⟨-, hst⟩ := hlog
      subst hst
      exact hu
    | ok c =>
      rw [hv] at hlog
      simp only [is_token_blacklisted, hhealthy, if_true] at hlog
      cases hany : conn.store.any (fun r => r.token == t) with
      | true =>
        rw [hany] at hlog
        simp only [Prod.mk.injEq, Option.some.injEq] at hlog
        obtain ⟨-, hst⟩ := hlog
        subst hst
        exact hu
      | false =>
        rw [hany] at hlog
        simp only [insert_blacklisted_token, hhealthy, if_true, Prod.mk.injEq,
          Option.some.injEq] at hlog
        obtain ⟨-, hst⟩ := hlog
        subst hst
        rw [tokensUnique, List.pairwise_append]
        refine ⟨hu, List.pairwise_singleton _ _, ?_⟩
        intro a ha b hb
        simp only [List.mem_singleton] at hb
        subst hb
        have hne := List.any_eq_false.mp hany a ha
        simpa using hne
  · simp only [cleanup_expired_tokens, hhealthy, if_true, Except.ok.injEq,
      Prod.mk.injEq] at hcln
    obtain ⟨-, hst⟩ := hcln
    subst hst
    exact hu.sublist (List.filter_sublist _)

/-- Witness for the amended C8: concrete logout and sweep outcomes keep the
single-record store unique, while a direct insert of the present token
appends a duplicate without error. -/
theorem writers_preserve_uniqueness_insert_appends_witness :
    tokensUnique [{ id := none, token := "tok", created_at := some 0 }]
    ∧ tokensUnique [{ id := none, token := "tok", created_at := some 0 }]
    ∧ insert_blacklisted_token connWithTok "tok" 1 =
        .ok ([{ id := none, token := "tok", created_at := some 0 }] ++
          [{ id := none, token := "tok", created_at := some 1 }]) :=
  writers_preserve_uniqueness_insert_appends validateNever connWithTok "tok" 1 0 0
    (.error (.Unauthorized "Invalid token"))
    [{ id := none, token := "tok", created_at := some 0 }]
    [{ id := none, token := "tok", created_at := some 0 }]
    rfl (List.pairwise_singleton _ _) rfl rfl

/-- C9: a successful login's response embeds the stored user's `password`
column (the bcrypt hash) verbatim in the serialized user object, and a
successful registration's response body likewise contains the stored
password hash in its `password` field. -/
theorem responses_include_stored_password_hash
    (users users2 : List User) (bverify : String → String → Except Unit Bool)
    (bhash : String → Option String) (secret : String) (now ttl : Nat)
    (email password username2 email2 password2 : String)
    (age : Option Int) (gender : Option String) (nowr : Nat) (newId : Int)
    (lr : LoginResponse) (u : User) (rr : RegisterResponseUser) (hashed : String)
    (hfind : find_user_by_email users email = .ok u)
    (hlogin : login_user users bverify secret now ttl email password = .ok lr)
    (hhash : bhash password2 = some hashed)
    (hreg : register users2 bhash username2 email2 password2 age gender nowr newId =
      .ok rr) :
    lr.user.password = u.password ∧ rr.password = hashed := by
  constructor
  · simp only [login_user, hfind] at hlogin
    cases hv : bverify password u.password with
    | error e =>
      rw [hv] at hlogin
      cases hlogin
    | ok b =>
      cases b
      · rw [hv] at hlogin
        cases hlogin
      · rw [hv] at hlogin
        simp only [Except.ok.injEq] at hlogin
        subst hlogin
        rfl
  · cases age with
    | none => simp [register, register_user, Except.map] at hreg
    | some a =>
      cases gender with
      | none => simp [register, register_user, Except.map] at hreg
      | some g =>
        simp only [register, register_user] at hreg
        by_cases hg : rustTrim g = ""
        · simp [hg, Except.map] at hreg
        · rw [if_neg hg] at hreg
          by_cases he : (users2.find? (fun v => v.email == email2)).isSome
          · simp [he, Except.map] at hreg
          · rw [if_neg (by simpa using he)] at hreg
            by_cases hn : (users2.find? (fun v => v.username == username2)).isSome
            · simp [hn, Except.map] at hreg
            · rw [if_neg (by simpa using hn), hhash] at hreg
              simp only [Except.map, Except.ok.injEq] at hreg
              subst hreg
              rfl

/-- Witness for C9: a concrete login and a concrete registration both echo
the stored hash in the response. -/
theorem responses_include_stored_password_hash_witness :
    ({ token := generate_token "s" 0 10 "1",
       user := { id := 1, username := "alice", email := "a@b",
                 password := "h-pw", age := some 20, gender := some "f",
                 avatar := none, settings := none,
                 created_at := 0, updated_at := 0 } } : LoginResponse).user.password =
      ({ id := 1, username := "alice", email := "a@b", password := "h-pw",
         settings := none, age := some 20, gender := some "f", avatar := none,
         created_at := 0, updated_at := 0 } : User).password
    ∧ ({ id := 2, username := "bob", email := "b@c", age := some 30,
         gender := some "m", password := "h-pw2" } : RegisterResponseUser).password =
        "h-pw2" :=
  responses_include_stored_password_hash
    [{ id := 1, username := "alice", email := "a@b", password := "h-pw",
       settings := none, age := some 20, gender := some "f", avatar := none,
       created_at := 0, updated_at := 0 }] []
    (fun p h => .ok (("h-" ++ p) == h)) (fun p => some ("h-" ++ p))
    "s" 0 10 "a@b" "pw" "bob" "b@c" "pw2" (some 30) (some "m") 5 2
    { token := generate_token "s" 0 10 "1",
      user := { id := 1, username := "alice", email := "a@b",
                password := "h-pw", age := some 20, gender := some "f",
                avatar := none, settings := none,
                created_at := 0, updated_at := 0 } }
    { id := 1, username := "alice", email := "a@b", password := "h-pw",
      settings := none, age := some 20, gender := some "f", avatar := none,
      created_at := 0, updated_at := 0 }
    { id := 2, username := "bob", email := "b@c", age := some 30,
      gender := some "m", password := "h-pw2" } "h-pw2"
    rfl rfl rfl rfl

/-- C10: the sweep never removes a record whose `created_at` is NULL — such
a record satisfies no strictly-less-than comparison against the cutoff, so
it survives every sweep. -/
theorem cleanup_retains_null_created_at (conn : Conn) (cutoff n : Nat)
    (r : BlacklistedToken) (kept : List BlacklistedToken)
    (hrun : cleanup_expired_tokens conn cutoff = .ok (n, kept))
    (hr : r ∈ conn.store) (hnull : r.created_at = none) :
    r ∈ kept := by
  cases hh : conn.healthy with
  | false => simp [cleanup_expired_tokens, hh] at hrun
  | true =>
    simp only [cleanup_expired_tokens, hh, if_true, Except.ok.injEq,
      Prod.mk.injEq] at hrun
    obtain ⟨-, hkept⟩ := hrun
    subst hkept
    exact List.mem_filter.mpr ⟨hr, by simp [createdBefore, hnull]⟩

/-- Witness for C10: a concrete NULL-dated record survives a sweep with a
late cutoff. -/
theorem cleanup_retains_null_created_at_witness :
    ({ id := none, token := "old", created_at := none } : BlacklistedToken) ∈
      ([{ id := none, token := "old", created_at := none }] : List BlacklistedToken) :=
  cleanup_retains_null_created_at
    { store := [{ id := none, token := "old", created_at := none }], healthy := true }
    1000 0 { id := none, token := "old", created_at := none }
    [{ id := none, token := "old", created_at := none }]
    rfl (by simp) rfl

end MindMate
